import Mathlib

/-!
Shallow embedding of the statistics and scoring aggregation engine of the
calgary-concert-app repository (src/src/analysis_engine.py and
src/src/utils/report_generator.py), together with theorems settling the
frozen claims about it.

Python floats are modelled as rationals; Python ints as integers or
naturals.  Fallible operations (the float() builtin raising ValueError)
are modelled with Option.
-/

namespace HCM

/-- Rounding to two decimal places, modelling the Python builtin
round(x, 2) as used throughout the engine.  All concrete values the
claims evaluate are far from tie cases, so the tie-breaking convention is
immaterial here. -/
def round2 (q : ℚ) : ℚ := (round (100 * q) : ℤ) / 100

/-- Python float modulus x % y for nonnegative x and positive y, as used
in the synthetic score formulas (for such operands the Python semantics
is x - y * floor (x / y)). -/
def qmod (x y : ℚ) : ℚ := x - y * (⌊x / y⌋ : ℤ)

/-- Digit run value: folds a list of decimal digit characters into the
natural number they denote. -/
def digitsValNat (l : List Char) : ℕ :=
  l.foldl (fun a c => 10 * a + (c.toNat - 48)) 0

/-- Parser for an unsigned Python float literal over a character list:
digits with at most one decimal point and at least one digit overall.
Exponent, infinity and nan forms are not modelled; no cost string in the
repository contains them. -/
def parseUnsignedFloat (l : List Char) : Option ℚ :=
  let intPart := l.takeWhile Char.isDigit
  let rest := l.drop intPart.length
  match rest with
  | [] => if intPart.isEmpty then none else some ((digitsValNat intPart : ℕ) : ℚ)
  | '.' :: fracPart =>
      if fracPart.all Char.isDigit && !(intPart.isEmpty && fracPart.isEmpty) then
        some ((digitsValNat intPart : ℕ) +
          ((digitsValNat fracPart : ℕ) : ℚ) / (10 : ℚ) ^ fracPart.length)
      else none
  | _ => none

/-- Strips leading and trailing whitespace from a character list. -/
def trimWhitespace (l : List Char) : List Char :=
  ((l.dropWhile Char.isWhitespace).reverse.dropWhile Char.isWhitespace).reverse

/-- Model of the Python float(str) builtin on the strings the ROI
analysis feeds it: surrounding whitespace is stripped, an optional sign
is accepted, and the remainder must be a decimal numeral; every other
string raises ValueError, modelled as none. -/
def pyFloatOfString (s : String) : Option ℚ :=
  match trimWhitespace s.data with
  | '+' :: rest => parseUnsignedFloat rest
  | '-' :: rest => (parseUnsignedFloat rest).map Neg.neg
  | t => parseUnsignedFloat t

/-- Removal of every occurrence of a character, modelling the Python
call str.replace(c, r) with a one character pattern and the empty
replacement, as _generate_roi_analysis applies it to dollar signs and
commas. -/
def removeAllChar (c : Char) (s : String) : String :=
  (s.data.filter fun x => x ≠ c).asString

/-- Replacement of every occurrence of one character by another,
modelling the Python call str.replace(a, b) with one character pattern
and replacement, as _create_page_analysis applies it to spaces. -/
def replaceChar (a b : Char) (s : String) : String :=
  (s.data.map fun x => if x = a then b else x).asString

/-- Infix test on character lists. -/
def listInfix (needle : List Char) : List Char → Bool
  | [] => needle.isEmpty
  | c :: t => needle.isPrefixOf (c :: t) || listInfix needle t

/-- Substring test, modelling the Python expression needle in haystack
on strings. -/
def strContains (haystack needle : String) : Bool :=
  listInfix needle.data haystack.data

end HCM

namespace HCM

/-- PageAnalysis dataclass of src/src/analysis_engine.py. -/
structure PageAnalysis where
  title : String
  url : String
  module : String
  complexity_score : ℚ
  load_time : ℚ
  feature_count : ℕ
  forms : List String
  reports : List String
  workflows : List String
  keywords : List String
  description : String
  parent_pages : List String
  child_pages : List String
  navigation_path : List String
  performance_notes : List String
  recommendations : List String
  last_updated : String
  usage_frequency : String
  business_criticality : String
  technical_debt : ℚ
  accessibility_score : ℚ
  mobile_friendly : Bool
  seo_score : ℚ
deriving Repr, DecidableEq

/-- FeatureAnalysis dataclass of src/src/analysis_engine.py. -/
structure FeatureAnalysis where
  name : String
  description : String
  category : String
  complexity : String
  business_value : String
  implementation_effort : String
  dependencies : List String
  api_endpoints : List String
  configuration_options : List String
  usage_examples : List String
  common_issues : List String
  performance_impact : String
  security_considerations : List String
  keywords : List String
  related_features : List String
  documentation_quality : String
  testing_coverage : String
  maintenance_effort : String
  roi_timeline : String
  risk_level : String
deriving Repr, DecidableEq

/-- BestPractice dataclass of src/src/analysis_engine.py. -/
structure BestPractice where
  title : String
  description : String
  category : String
  priority : ℤ
  business_impact : String
  estimated_effort : String
  implementation_steps : List String
  prerequisites : List String
  required_resources : List String
  configuration_changes : List String
  benefits : List String
  business_impact_analysis : String
  risk_mitigation : List String
  examples : List String
  use_cases : List String
  success_stories : List String
  metrics_to_track : List String
  timeline : String
  cost_estimate : String
  team_requirements : List String
deriving Repr, DecidableEq

/-- SystemStats dataclass of src/src/analysis_engine.py. -/
structure SystemStats where
  total_pages : ℕ
  total_features : ℕ
  total_best_practices : ℕ
  average_complexity : ℚ
  average_load_time : ℚ
  high_complexity_pages : ℕ
  performance_issues : ℕ
  security_concerns : ℕ
  accessibility_issues : ℕ
  mobile_friendly_pages : ℕ
  seo_optimized_pages : ℕ
  workflow_integration_score : ℚ
  feature_density : ℚ
  technical_debt_total : ℚ
  business_value_score : ℚ
  implementation_effort_score : ℚ
  roi_score : ℚ
deriving Repr, DecidableEq

end HCM

namespace HCM

/-! Embeddings of the report generator helpers
(src/src/utils/report_generator.py). -/

/-- The method _calculate_page_risk (report_generator.py lines 760-775):
collects the fired fixed penalties into a list and returns their sum
(the Python expression sum(risk_factors) if risk_factors else 0.0 equals
that sum in every case, since the sum of an empty list is 0). -/
def calculate_page_risk (page : PageAnalysis) : ℚ :=
  let risk_factors : List ℚ :=
    (if page.load_time > 3 then [0.3] else []) ++
    (if page.complexity_score > 0.7 then [0.3] else []) ++
    (if page.technical_debt > 0.5 then [0.2] else []) ++
    (if page.mobile_friendly = false then [0.1] else []) ++
    (if page.accessibility_score < 0.8 then [0.1] else [])
  risk_factors.sum

/-- Risk bucket labels used by _generate_risk_assessment. -/
inductive RiskBucket where
  | high
  | medium
  | low
deriving Repr, DecidableEq

/-- The bucketing of a page risk score in _generate_risk_assessment
(report_generator.py lines 440-445): at least 0.7 goes to
high_risk_items, at least 0.4 to medium_risk_items, the rest to
low_risk_items. -/
def risk_bucket (risk_score : ℚ) : RiskBucket :=
  if risk_score ≥ 0.7 then .high
  else if risk_score ≥ 0.4 then .medium
  else .low

/-- The method _calculate_roi_score of the report generator (lines
794-802): priority divided by 5, times the impact score looked up from
the dict with default 1.0. -/
def calculate_roi_score_report (best_practice : BestPractice) : ℚ :=
  let priority_score : ℚ := (best_practice.priority : ℚ) / 5
  let impact_score : ℚ :=
    if best_practice.business_impact = "low" then 1
    else if best_practice.business_impact = "medium" then 2
    else if best_practice.business_impact = "high" then 3
    else 1
  priority_score * impact_score

/-- The method _estimate_benefit_value (report_generator.py lines
804-811): dict lookup with default 25000. -/
def estimate_benefit_value (business_impact : String) : ℚ :=
  if business_impact = "low" then 10000
  else if business_impact = "medium" then 50000
  else if business_impact = "high" then 150000
  else 25000

/-- The roi_item dict built in _generate_roi_analysis for each best
practice (lines 481-489). -/
structure RoiItem where
  title : String
  category : String
  priority : ℤ
  estimated_cost : String
  business_impact : String
  timeline : String
  roi_score : ℚ
deriving Repr, DecidableEq

/-- Builds the roi_item dict of _generate_roi_analysis from a best
practice.  The hasattr guards in the source are always true, since the
BestPractice dataclass always carries both attributes. -/
def mkRoiItem (bp : BestPractice) : RoiItem :=
  { title := bp.title
    category := bp.category
    priority := bp.priority
    estimated_cost := bp.cost_estimate
    business_impact := bp.business_impact
    timeline := bp.timeline
    roi_score := calculate_roi_score_report bp }

/-- The roi_data dict of _generate_roi_analysis. -/
structure RoiData where
  high_roi_opportunities : List RoiItem
  medium_roi_opportunities : List RoiItem
  low_roi_opportunities : List RoiItem
  total_estimated_cost : ℚ
  total_estimated_benefit : ℚ
  overall_roi : ℚ
deriving Repr, DecidableEq

/-- The cost figure the totals loop of _generate_roi_analysis computes
for one opportunity (line 500): float() applied to the cost string with
every dollar sign and comma removed.  none models the ValueError that
float() raises when the stripped string is not a numeral. -/
def parse_estimated_cost (estimated_cost : String) : Option ℚ :=
  pyFloatOfString (removeAllChar ',' (removeAllChar '$' estimated_cost))

/-- The method _generate_roi_analysis (report_generator.py lines
468-506).  The per-item loop appends each roi_item to exactly one of the
three opportunity buckets in input order, rendered here as stable
filters of the mapped item list; the totals loop then walks the
concatenation high ++ medium ++ low accumulating the parsed cost and the
estimated benefit.  An unparseable cost string raises ValueError in the source,
modelled by the whole computation returning none. -/
def generate_roi_analysis (best_practices : List BestPractice) : Option RoiData :=
  let items := best_practices.map mkRoiItem
  let high := items.filter fun it => decide (it.roi_score ≥ 3)
  let medium := items.filter fun it => decide (¬it.roi_score ≥ 3 ∧ it.roi_score ≥ 1.5)
  let low := items.filter fun it => decide (¬it.roi_score ≥ 3 ∧ ¬it.roi_score ≥ 1.5)
  let totals := (high ++ medium ++ low).foldl
    (fun (acc : Option (ℚ × ℚ)) it => acc.bind fun cb =>
      (parse_estimated_cost it.estimated_cost).map fun v =>
        (cb.1 + v, cb.2 + estimate_benefit_value it.business_impact))
    (some ((0 : ℚ), (0 : ℚ)))
  totals.map fun cb =>
    { high_roi_opportunities := high
      medium_roi_opportunities := medium
      low_roi_opportunities := low
      total_estimated_cost := cb.1
      total_estimated_benefit := cb.2
      overall_roi := if (cb.1 : ℚ) > 0 then cb.2 / cb.1 else 0 }

/-- The per-practice dict appended to the roadmap buckets in
_generate_implementation_roadmap of the report generator (lines
641-646). -/
structure RoadmapItem where
  title : String
  category : String
  effort : String
  timeline : String
deriving Repr, DecidableEq

/-- Builds the roadmap bucket entry of the report generator from a best
practice. -/
def mkRoadmapItem (bp : BestPractice) : RoadmapItem :=
  { title := bp.title
    category := bp.category
    effort := bp.estimated_effort
    timeline := bp.timeline }

/-- The roadmap dict of _generate_implementation_roadmap in
report_generator.py (lines 629-676), with its five buckets. -/
structure RoadmapReport where
  immediate_actions : List RoadmapItem
  short_term : List RoadmapItem
  medium_term : List RoadmapItem
  long_term : List RoadmapItem
  strategic : List RoadmapItem
deriving Repr, DecidableEq

/-- One iteration of the loop of _generate_implementation_roadmap in the
report generator: the if/elif chain on bp.priority appends the entry to
exactly one bucket. -/
def roadmap_report_step (roadmap : RoadmapReport) (bp : BestPractice) : RoadmapReport :=
  if bp.priority = 5 then
    { roadmap with immediate_actions := roadmap.immediate_actions ++ [mkRoadmapItem bp] }
  else if bp.priority = 4 then
    { roadmap with short_term := roadmap.short_term ++ [mkRoadmapItem bp] }
  else if bp.priority = 3 then
    { roadmap with medium_term := roadmap.medium_term ++ [mkRoadmapItem bp] }
  else if bp.priority = 2 then
    { roadmap with long_term := roadmap.long_term ++ [mkRoadmapItem bp] }
  else
    { roadmap with strategic := roadmap.strategic ++ [mkRoadmapItem bp] }

/-- The method _generate_implementation_roadmap of the report generator
(lines 629-676): starts from five empty buckets and folds the loop body
over the best practices in input order. -/
def generate_implementation_roadmap_report (best_practices : List BestPractice) : RoadmapReport :=
  best_practices.foldl roadmap_report_step ⟨[], [], [], [], []⟩

end HCM

namespace HCM

/-! Embeddings of the analysis engine (src/src/analysis_engine.py). -/

/-- The roadmap dict of _generate_implementation_roadmap in
analysis_engine.py (lines 836-855).  It has only four buckets; the keys
are the strings written in the doc string of each field. -/
structure RoadmapEngine where
  /-- Bucket keyed "Immediate (0-30 days)". -/
  immediate : List String
  /-- Bucket keyed "Short-term (1-3 months)". -/
  short_term : List String
  /-- Bucket keyed "Medium-term (3-6 months)". -/
  medium_term : List String
  /-- Bucket keyed "Long-term (6+ months)". -/
  long_term : List String
deriving Repr, DecidableEq

/-- One iteration of the loop of _generate_implementation_roadmap in the
analysis engine: priority 5, 4 and 3 go to the first three buckets and
every other priority falls into the final else branch, the
"Long-term (6+ months)" bucket.  The appended entry is the bare title. -/
def roadmap_engine_step (roadmap : RoadmapEngine) (bp : BestPractice) : RoadmapEngine :=
  if bp.priority = 5 then
    { roadmap with immediate := roadmap.immediate ++ [bp.title] }
  else if bp.priority = 4 then
    { roadmap with short_term := roadmap.short_term ++ [bp.title] }
  else if bp.priority = 3 then
    { roadmap with medium_term := roadmap.medium_term ++ [bp.title] }
  else
    { roadmap with long_term := roadmap.long_term ++ [bp.title] }

/-- The method _generate_implementation_roadmap of analysis_engine.py
(lines 836-855): folds the loop body over the best practices starting
from four empty buckets. -/
def generate_implementation_roadmap_engine (best_practices : List BestPractice) : RoadmapEngine :=
  best_practices.foldl roadmap_engine_step ⟨[], [], [], []⟩

/-- The method _calculate_workflow_integration_score (lines 749-755):
zero for an empty page list, otherwise the fraction of pages whose
workflow list is nonempty (Python truthiness of a list), rounded to two
decimals. -/
def calculate_workflow_integration_score (pages : List PageAnalysis) : ℚ :=
  if pages.isEmpty then 0
  else
    let pages_with_workflows := (pages.filter fun p => !p.workflows.isEmpty).length
    round2 ((pages_with_workflows : ℚ) / (pages.length : ℚ))

/-- The method _calculate_business_value_score (lines 757-764): zero for
an empty feature list, otherwise the dict lookup {low:1, medium:2,
high:3} with default 1 summed over the features and normalised by three
times the feature count, rounded to two decimals. -/
def calculate_business_value_score (features : List FeatureAnalysis) : ℚ :=
  if features.isEmpty then 0
  else
    let value_score : String → ℚ := fun v =>
      if v = "low" then 1 else if v = "medium" then 2 else if v = "high" then 3 else 1
    let total_score := (features.map fun f => value_score f.business_value).sum
    round2 (total_score / ((features.length : ℚ) * 3))

/-- The method _calculate_implementation_effort_score (lines 766-773):
identical to the business value score with implementation_effort
substituted. -/
def calculate_implementation_effort_score (features : List FeatureAnalysis) : ℚ :=
  if features.isEmpty then 0
  else
    let effort_score : String → ℚ := fun v =>
      if v = "low" then 1 else if v = "medium" then 2 else if v = "high" then 3 else 1
    let total_score := (features.map fun f => effort_score f.implementation_effort).sum
    round2 (total_score / ((features.length : ℚ) * 3))

/-- The method _calculate_roi_score of analysis_engine.py (lines
775-787): zero for an empty best practice list, otherwise priority times
the impact dict lookup {low:1, medium:2, high:3} with default 1, summed
and normalised by len * 5 * 3, rounded to two decimals. -/
def calculate_roi_score (best_practices : List BestPractice) : ℚ :=
  if best_practices.isEmpty then 0
  else
    let total_score := (best_practices.map fun bp =>
      (bp.priority : ℚ) *
        (if bp.business_impact = "low" then 1
         else if bp.business_impact = "medium" then 2
         else if bp.business_impact = "high" then 3 else 1)).sum
    let max_possible_score : ℚ := (best_practices.length : ℚ) * 5 * 3
    round2 (total_score / max_possible_score)

/-- The method _calculate_statistics of analysis_engine.py (lines
367-413).  The source computes the page-derived block under a single
guard if total_pages > 0 with an else branch setting every one of those
locals to 0, and the feature-derived block under if total_features > 0
likewise; the translation guards each local with the same condition. -/
def calculate_statistics (pages : List PageAnalysis) (features : List FeatureAnalysis)
    (best_practices : List BestPractice) : SystemStats :=
  let total_pages := pages.length
  let total_features := features.length
  let total_best_practices := best_practices.length
  let average_complexity : ℚ :=
    if total_pages > 0 then (pages.map (·.complexity_score)).sum / (total_pages : ℚ) else 0
  let average_load_time : ℚ :=
    if total_pages > 0 then (pages.map (·.load_time)).sum / (total_pages : ℚ) else 0
  let high_complexity_pages : ℕ :=
    if total_pages > 0 then (pages.filter fun p => decide (p.complexity_score > 0.7)).length else 0
  let performance_issues : ℕ :=
    if total_pages > 0 then (pages.filter fun p => decide (p.load_time > 3)).length else 0
  let accessibility_issues : ℕ :=
    if total_pages > 0 then (pages.filter fun p => decide (p.accessibility_score < 0.7)).length else 0
  let mobile_friendly_pages : ℕ :=
    if total_pages > 0 then (pages.filter fun p => p.mobile_friendly).length else 0
  let seo_optimized_pages : ℕ :=
    if total_pages > 0 then (pages.filter fun p => decide (p.seo_score > 0.8)).length else 0
  let technical_debt_total : ℚ :=
    if total_pages > 0 then (pages.map (·.technical_debt)).sum else 0
  let feature_density : ℚ :=
    if total_features > 0 then
      (if total_pages > 0 then (total_features : ℚ) / (total_pages : ℚ) else 0)
    else 0
  let business_value_score : ℚ :=
    if total_features > 0 then calculate_business_value_score features else 0
  let implementation_effort_score : ℚ :=
    if total_features > 0 then calculate_implementation_effort_score features else 0
  { total_pages := total_pages
    total_features := total_features
    total_best_practices := total_best_practices
    average_complexity := round2 average_complexity
    average_load_time := round2 average_load_time
    high_complexity_pages := high_complexity_pages
    performance_issues := performance_issues
    security_concerns := (features.filter fun f => f.risk_level = "high").length
    accessibility_issues := accessibility_issues
    mobile_friendly_pages := mobile_friendly_pages
    seo_optimized_pages := seo_optimized_pages
    workflow_integration_score := calculate_workflow_integration_score pages
    feature_density := round2 feature_density
    technical_debt_total := round2 technical_debt_total
    business_value_score := round2 business_value_score
    implementation_effort_score := round2 implementation_effort_score
    roi_score := calculate_roi_score best_practices }

/-- The three record lists an AnalysisSession hands to the aggregator,
as an explicit state for the frame theorem of claim C9. -/
structure SessionRecords where
  pages : List PageAnalysis
  features : List FeatureAnalysis
  best_practices : List BestPractice
deriving Repr, DecidableEq

/-- State-passing rendering of _calculate_statistics: the method only
reads the three lists (comprehensions, sums and len calls) and assigns
no attribute of any record, so its translation threads the record state
unchanged past the computed SystemStats. -/
def calculate_statistics_st (st : SessionRecords) : SystemStats × SessionRecords :=
  (calculate_statistics st.pages st.features st.best_practices, st)

end HCM

namespace HCM

/-! The rule-generated best practices of analysis_engine.py, lines
571-747, transcribed field by field. -/

/-- The BestPractice built by _generate_performance_best_practices when
some page has load_time above 3.0 (lines 577-603). -/
def optimize_page_load_times_bp : BestPractice :=
  { title := "Optimize Page Load Times"
    description := "Implement performance optimizations to reduce page load times below 3 seconds"
    category := "Performance"
    priority := 4
    business_impact := "high"
    estimated_effort := "medium"
    implementation_steps :=
      ["Implement code splitting and lazy loading",
       "Optimize image and asset delivery",
       "Enable browser caching",
       "Minimize HTTP requests"]
    prerequisites := ["Performance monitoring tools", "Development team access"]
    required_resources := ["Frontend developers", "Performance testing tools"]
    configuration_changes := ["Enable compression", "Configure CDN"]
    benefits := ["Improved user experience", "Reduced bounce rates", "Better SEO"]
    business_impact_analysis := "Faster page loads improve user satisfaction and productivity"
    risk_mitigation := ["Test changes in staging environment", "Monitor performance metrics"]
    examples := ["Google PageSpeed Insights", "WebPageTest"]
    use_cases := ["High-traffic pages", "Mobile users", "International users"]
    success_stories := ["Company X reduced load times by 40%"]
    metrics_to_track := ["Page load time", "Time to interactive", "First contentful paint"]
    timeline := "4-6 weeks"
    cost_estimate := "$15,000 - $25,000"
    team_requirements := ["Frontend developers", "DevOps engineers", "QA testers"] }

/-- The BestPractice unconditionally built by
_generate_security_best_practices (lines 612-638). -/
def implement_rbac_bp : BestPractice :=
  { title := "Implement Role-Based Access Control"
    description := "Establish comprehensive role-based access control for all system features"
    category := "Security"
    priority := 5
    business_impact := "high"
    estimated_effort := "high"
    implementation_steps :=
      ["Define user roles and permissions",
       "Implement access control matrix",
       "Configure authentication mechanisms",
       "Set up audit logging"]
    prerequisites := ["Security policy defined", "User roles identified"]
    required_resources := ["Security team", "System administrators"]
    configuration_changes := ["User role configuration", "Permission settings"]
    benefits := ["Data security", "Compliance", "Risk reduction"]
    business_impact_analysis := "Protects sensitive HR data and ensures compliance"
    risk_mitigation := ["Regular security audits", "Access reviews"]
    examples := ["Oracle Identity Manager", "Active Directory"]
    use_cases := ["Employee data access", "Manager permissions", "Admin access"]
    success_stories := ["Company Y improved security posture by 60%"]
    metrics_to_track := ["Failed access attempts", "Permission changes", "Security incidents"]
    timeline := "8-12 weeks"
    cost_estimate := "$30,000 - $50,000"
    team_requirements := ["Security specialists", "System administrators", "Compliance team"] }

/-- The BestPractice built by _generate_usability_best_practices when
not every page is mobile friendly (lines 648-674). -/
def improve_mobile_responsiveness_bp : BestPractice :=
  { title := "Improve Mobile Responsiveness"
    description := "Ensure all pages are fully responsive and mobile-friendly"
    category := "Usability"
    priority := 3
    business_impact := "medium"
    estimated_effort := "medium"
    implementation_steps :=
      ["Audit current mobile experience",
       "Implement responsive design patterns",
       "Test on various devices",
       "Optimize touch interactions"]
    prerequisites := ["Mobile design guidelines", "Device testing plan"]
    required_resources := ["UI/UX designers", "Frontend developers"]
    configuration_changes := ["CSS media queries", "Touch-friendly controls"]
    benefits := ["Better mobile experience", "Increased accessibility", "Modern appearance"]
    business_impact_analysis := "Improves productivity for mobile users"
    risk_mitigation := ["User testing", "Progressive enhancement"]
    examples := ["Bootstrap", "Material Design"]
    use_cases := ["Field workers", "Remote employees", "Mobile-first users"]
    success_stories := ["Company Z increased mobile usage by 35%"]
    metrics_to_track := ["Mobile usage", "Mobile conversion rates", "User satisfaction"]
    timeline := "6-8 weeks"
    cost_estimate := "$20,000 - $35,000"
    team_requirements := ["UI/UX designers", "Frontend developers", "QA testers"] }

/-- The BestPractice unconditionally built by
_generate_integration_best_practices (lines 683-709). -/
def standardize_api_design_bp : BestPractice :=
  { title := "Standardize API Design"
    description := "Establish consistent API design patterns and documentation"
    category := "Integration"
    priority := 4
    business_impact := "medium"
    estimated_effort := "medium"
    implementation_steps :=
      ["Define API design standards",
       "Create API documentation templates",
       "Implement versioning strategy",
       "Set up API testing framework"]
    prerequisites := ["API strategy defined", "Development standards"]
    required_resources := ["Backend developers", "API architects"]
    configuration_changes := ["API gateway configuration", "Documentation setup"]
    benefits := ["Easier integration", "Better developer experience", "Reduced errors"]
    business_impact_analysis := "Streamlines system integration and maintenance"
    risk_mitigation := ["Backward compatibility", "Comprehensive testing"]
    examples := ["REST API guidelines", "OpenAPI specification"]
    use_cases := ["Third-party integrations", "Mobile apps", "External systems"]
    success_stories := ["Company A reduced integration time by 50%"]
    metrics_to_track := ["API response times", "Integration success rates", "Developer satisfaction"]
    timeline := "6-10 weeks"
    cost_estimate := "$25,000 - $40,000"
    team_requirements := ["Backend developers", "API architects", "DevOps engineers"] }

/-- The BestPractice built by _generate_accessibility_best_practices
when some page has accessibility_score below 0.8 (lines 719-745). -/
def achieve_wcag_compliance_bp : BestPractice :=
  { title := "Achieve WCAG 2.1 AA Compliance"
    description := "Ensure all pages meet WCAG 2.1 AA accessibility standards"
    category := "Accessibility"
    priority := 3
    business_impact := "medium"
    estimated_effort := "high"
    implementation_steps :=
      ["Conduct accessibility audit",
       "Implement ARIA labels",
       "Ensure keyboard navigation",
       "Test with screen readers"]
    prerequisites := ["Accessibility guidelines", "Testing tools"]
    required_resources := ["Accessibility specialists", "Frontend developers"]
    configuration_changes := ["ARIA attributes", "CSS focus indicators"]
    benefits := ["Legal compliance", "Broader user access", "Better UX"]
    business_impact_analysis := "Ensures compliance and accessibility for all users"
    risk_mitigation := ["Regular audits", "User testing"]
    examples := ["WAVE tool", "axe-core", "NVDA screen reader"]
    use_cases := ["Users with disabilities", "Compliance requirements", "Legal protection"]
    success_stories := ["Company B achieved 95% WCAG compliance"]
    metrics_to_track := ["Accessibility score", "WCAG violations", "User feedback"]
    timeline := "10-16 weeks"
    cost_estimate := "$35,000 - $60,000"
    team_requirements := ["Accessibility specialists", "Frontend developers", "QA testers"] }

/-- The method _generate_performance_best_practices (lines 571-605):
emits the load time practice exactly when some page has load_time above
3.0. -/
def generate_performance_best_practices (pages : List PageAnalysis) : List BestPractice :=
  if pages.any fun p => decide (p.load_time > 3) then [optimize_page_load_times_bp] else []

/-- The method _generate_security_best_practices (lines 607-640): always
emits the RBAC practice; the feature list argument is not consulted. -/
def generate_security_best_practices (_features : List FeatureAnalysis) : List BestPractice :=
  [implement_rbac_bp]

/-- The method _generate_usability_best_practices (lines 642-676): emits
the mobile responsiveness practice exactly when not every page is
mobile friendly. -/
def generate_usability_best_practices (pages : List PageAnalysis) : List BestPractice :=
  if !(pages.all fun p => p.mobile_friendly) then [improve_mobile_responsiveness_bp] else []

/-- The method _generate_integration_best_practices (lines 678-711):
always emits the API design practice; the feature list argument is not
consulted. -/
def generate_integration_best_practices (_features : List FeatureAnalysis) : List BestPractice :=
  [standardize_api_design_bp]

/-- The method _generate_accessibility_best_practices (lines 713-747):
emits the WCAG practice exactly when some page has accessibility_score
below 0.8. -/
def generate_accessibility_best_practices (pages : List PageAnalysis) : List BestPractice :=
  if pages.any fun p => decide (p.accessibility_score < 0.8) then [achieve_wcag_compliance_bp] else []

/-- The method _generate_best_practices (lines 341-365): concatenates
the five rule generators in order. -/
def generate_best_practices (pages : List PageAnalysis) (features : List FeatureAnalysis) :
    List BestPractice :=
  generate_performance_best_practices pages ++
  generate_security_best_practices features ++
  generate_usability_best_practices pages ++
  generate_integration_best_practices features ++
  generate_accessibility_best_practices pages

end HCM

namespace HCM

/-! The synthetic page generator of analysis_engine.py. -/

/-- The form_templates list of _generate_forms_for_page (lines 418-421). -/
def form_templates : List String :=
  ["Data Entry Form", "Search Form", "Filter Form", "Configuration Form",
   "Approval Form", "Review Form", "Settings Form", "Import Form"]

/-- The method _generate_forms_for_page (lines 416-422). -/
def generate_forms_for_page (page_name : String) : List String :=
  (List.range (max 1 (page_name.length % 4))).map fun i =>
    form_templates.getD (i % form_templates.length) ""

/-- The report_templates list of _generate_reports_for_page (lines 426-429). -/
def report_templates : List String :=
  ["Summary Report", "Detailed Report", "Analytics Report", "Trend Report",
   "Comparison Report", "Performance Report", "Status Report", "Audit Report"]

/-- The method _generate_reports_for_page (lines 424-430). -/
def generate_reports_for_page (page_name : String) : List String :=
  (List.range (max 1 (page_name.length % 3))).map fun i =>
    report_templates.getD (i % report_templates.length) ""

/-- The workflow_templates list of _generate_workflows_for_page (lines 434-437). -/
def workflow_templates : List String :=
  ["Approval Workflow", "Review Workflow", "Notification Workflow",
   "Data Processing Workflow", "Integration Workflow", "Maintenance Workflow"]

/-- The method _generate_workflows_for_page (lines 432-438). -/
def generate_workflows_for_page (page_name : String) : List String :=
  (List.range (max 1 (page_name.length % 2))).map fun i =>
    workflow_templates.getD (i % workflow_templates.length) ""

/-- Character class of the regex token \w. -/
def isWordChar (c : Char) : Bool := c.isAlphanum || c == '_'

/-- Splits a character list into the maximal runs of word characters,
modelling re.findall of \b\w+\b.  The second argument accumulates the
current run in reverse. -/
def wordRuns : List Char → List Char → List (List Char)
  | [], [] => []
  | [], cur => [cur.reverse]
  | c :: rest, cur =>
      if isWordChar c then wordRuns rest (c :: cur)
      else if cur.isEmpty then wordRuns rest []
      else cur.reverse :: wordRuns rest []

/-- The stop word set of _extract_keywords (line 444). -/
def stop_words : List String :=
  ["the", "a", "an", "and", "or", "but", "in", "on", "at", "to", "for", "of", "with", "by"]

/-- Deduplication keeping the first occurrence of each string.  The
source computes list(set(keywords)), whose ordering is unspecified and
interpreter dependent; this embedding fixes the first-occurrence order,
which is deterministic for a given input. -/
def dedupKeepFirst (l : List String) : List String :=
  l.foldl (fun acc w => if w ∈ acc then acc else acc ++ [w]) []

/-- The method _extract_keywords (lines 440-446): tokenize the lowered
text on word boundaries, drop stop words and tokens of length at most 3,
deduplicate, keep at most 5. -/
def extract_keywords (text : String) : List String :=
  let words := (wordRuns text.toLower.data []).map List.asString
  let keywords := words.filter fun w => !(stop_words.contains w) && w.length > 3
  (dedupKeepFirst keywords).take 5

/-- The method _generate_page_description (lines 448-450). -/
def generate_page_description (page_name : String) (module : String) : String :=
  let lowered := page_name.toLower
  s!"The {page_name} page provides comprehensive functionality for managing {lowered} within the {module} module. This page offers intuitive navigation and efficient data management capabilities."

/-- The method _generate_parent_pages (lines 452-454). -/
def generate_parent_pages (_page_name : String) (module : String) : List String :=
  [s!"{module} Dashboard", s!"{module} Overview"]

/-- The method _generate_child_pages (lines 456-458). -/
def generate_child_pages (page_name : String) (_module : String) : List String :=
  [s!"{page_name} Details", s!"{page_name} Configuration"]

/-- The method _generate_navigation_path (lines 460-462). -/
def generate_navigation_path (page_name : String) (module : String) : List String :=
  ["Home", module, page_name]

/-- The method _generate_performance_notes (lines 464-473). -/
def generate_performance_notes (load_time complexity : ℚ) : List String :=
  let notes :=
    (if load_time > 3 then ["Page load time exceeds recommended threshold of 3 seconds"] else []) ++
    (if complexity > 0.8 then ["High complexity may impact user experience and maintenance"] else [])
  if notes.isEmpty then ["Performance metrics are within acceptable ranges"] else notes

/-- The method _generate_page_recommendations (lines 475-484). -/
def generate_page_recommendations (complexity load_time : ℚ) : List String :=
  (if complexity > 0.8 then ["Consider simplifying page layout and reducing feature density"] else []) ++
  (if load_time > 3 then ["Optimize page loading performance through code splitting and lazy loading"] else []) ++
  (if complexity < 0.3 then ["Page may benefit from additional functionality to improve user productivity"] else [])

/-- The method _determine_usage_frequency (lines 486-493): substring
tests against the lowered page name. -/
def determine_usage_frequency (page_name : String) : String :=
  let lowered := page_name.toLower
  if ["dashboard", "overview", "home"].any (fun w => strContains lowered w) then "daily"
  else if ["report", "analytics"].any (fun w => strContains lowered w) then "weekly"
  else "monthly"

/-- The method _determine_business_criticality (lines 495-502). -/
def determine_business_criticality (page_name : String) : String :=
  let lowered := page_name.toLower
  if ["employee", "payroll", "security"].any (fun w => strContains lowered w) then "high"
  else if ["report", "analytics"].any (fun w => strContains lowered w) then "medium"
  else "low"

/-- The method _create_page_analysis (analysis_engine.py lines 251-282).
The extra argument today models the expression
datetime.now().strftime of the pattern %Y-%m-%d on line 275, the one
clock read in the method: every other field is a pure function of
(page_name, module, page_id). -/
def create_page_analysis (page_name : String) (module : String) (page_id : ℕ)
    (today : String) : PageAnalysis :=
  let complexity_score := round2 (0.1 + qmod ((page_id : ℚ) * 0.05) 0.9)
  let load_time := round2 (0.5 + qmod ((page_id : ℚ) * 0.1) 2.5)
  let feature_count := max 1 (page_id % 8)
  let module_slug := replaceChar ' ' '-' module.toLower
  let page_slug := replaceChar ' ' '-' page_name.toLower
  { title := page_name
    url := s!"/hcm/{module_slug}/{page_slug}"
    module := module
    complexity_score := complexity_score
    load_time := load_time
    feature_count := feature_count
    forms := generate_forms_for_page page_name
    reports := generate_reports_for_page page_name
    workflows := generate_workflows_for_page page_name
    keywords := extract_keywords page_name
    description := generate_page_description page_name module
    parent_pages := generate_parent_pages page_name module
    child_pages := generate_child_pages page_name module
    navigation_path := generate_navigation_path page_name module
    performance_notes := generate_performance_notes load_time complexity_score
    recommendations := generate_page_recommendations complexity_score load_time
    last_updated := today
    usage_frequency := determine_usage_frequency page_name
    business_criticality := determine_business_criticality page_name
    technical_debt := round2 (complexity_score * 0.8)
    accessibility_score := round2 (0.6 + qmod ((page_id : ℚ) * 0.03) 0.4)
    mobile_friendly := decide (page_id % 3 ≠ 0)
    seo_score := round2 (0.5 + qmod ((page_id : ℚ) * 0.04) 0.5) }

end HCM

namespace HCM

/-- Character class of the digit groups in a formatted cost range. -/
def isCostDigitOrComma (c : Char) : Bool := c.isDigit || c == ','

/-- Modelled from the spec: the cost_estimate pattern the spec writes as
a dollar sign, a comma-grouped lower bound, the separator
space-hyphen-space, a dollar sign and a comma-grouped upper bound.  Used
only to state claim C5, which speaks of strings matching or not matching
that pattern; the source never checks any pattern. -/
def matches_cost_range_pattern (s : String) : Bool :=
  match s.data with
  | '$' :: rest =>
      let lo := rest.takeWhile isCostDigitOrComma
      (match rest.drop lo.length with
       | ' ' :: '-' :: ' ' :: '$' :: hi =>
           !lo.isEmpty && !hi.isEmpty && hi.all isCostDigitOrComma
       | _ => false)
  | _ => false

/-- Modelled from the spec: the business value map of section 4.2,
namely low to 1, medium to 2, high to 3, with no default for other labels (the spec
data model confines business_value to these three).  Stated for the
refinement comparison of claim C6; the source dict lookup carries a
default of 1. -/
def business_value_map_spec (v : String) : ℚ :=
  if v = "low" then 1 else if v = "medium" then 2 else 3

/-- The end-to-end scenario page of claim C3: load_time 4.0, complexity
0.9, accessibility 0.6, not mobile friendly, technical debt 0.72.  The
remaining fields are irrelevant filler. -/
def scenario_page : PageAnalysis :=
  { title := "Scenario Page"
    url := "/hcm/core-hr/scenario-page"
    module := "Core HR"
    complexity_score := 0.9
    load_time := 4.0
    feature_count := 1
    forms := []
    reports := []
    workflows := []
    keywords := []
    description := ""
    parent_pages := []
    child_pages := []
    navigation_path := []
    performance_notes := []
    recommendations := []
    last_updated := "2024-01-01"
    usage_frequency := "monthly"
    business_criticality := "low"
    technical_debt := 0.72
    accessibility_score := 0.6
    mobile_friendly := false
    seo_score := 0.5 }

/-- A feature record with business_value high; the remaining fields are
irrelevant filler. -/
def feature_high : FeatureAnalysis :=
  { name := "Feature High"
    description := ""
    category := "Core Functionality"
    complexity := "medium"
    business_value := "high"
    implementation_effort := "medium"
    dependencies := []
    api_endpoints := []
    configuration_options := []
    usage_examples := []
    common_issues := []
    performance_impact := "low"
    security_considerations := []
    keywords := []
    related_features := []
    documentation_quality := "good"
    testing_coverage := "medium"
    maintenance_effort := "medium"
    roi_timeline := "6 months"
    risk_level := "low" }

/-- A feature record with business_value low; the remaining fields are
irrelevant filler. -/
def feature_low : FeatureAnalysis :=
  { feature_high with name := "Feature Low", business_value := "low" }

/-- A best practice with priority 2, used in the counterexample of claim
C2; the remaining fields are irrelevant filler. -/
def priority_two_example_bp : BestPractice :=
  { implement_rbac_bp with title := "Priority Two Example", priority := 2 }

/-- A best practice with priority 1, used in the counterexample of claim
C2; the remaining fields are irrelevant filler. -/
def priority_one_example_bp : BestPractice :=
  { implement_rbac_bp with title := "Priority One Example", priority := 1 }

/-- A best practice whose cost_estimate is the plain amount $5000 rather
than a range, used in the counterexample of claim C5. -/
def plain_cost_bp : BestPractice :=
  { implement_rbac_bp with
    title := "Plain Cost Example"
    priority := 1
    business_impact := "low"
    cost_estimate := "$5000" }

end HCM

namespace HCM

/-! Helper lemmas shared by the claim theorems. -/

/-- The page risk score equals the sum of the five fixed penalty terms. -/
theorem calculate_page_risk_eq (page : PageAnalysis) :
    calculate_page_risk page =
      (if page.load_time > 3 then (0.3 : ℚ) else 0) +
      (if page.complexity_score > 0.7 then (0.3 : ℚ) else 0) +
      (if page.technical_debt > 0.5 then (0.2 : ℚ) else 0) +
      (if page.mobile_friendly = false then (0.1 : ℚ) else 0) +
      (if page.accessibility_score < 0.8 then (0.1 : ℚ) else 0) := by
  unfold calculate_page_risk
  split_ifs <;> simp <;> norm_num

/-- round2 maps the unit interval into itself. -/
theorem round2_mem_unit {q : ℚ} (h0 : 0 ≤ q) (h1 : q ≤ 1) :
    0 ≤ round2 q ∧ round2 q ≤ 1 := by
  unfold round2
  constructor
  · apply div_nonneg _ (by norm_num)
    have : (0 : ℤ) ≤ round (100 * q) := by
      rw [round_eq]
      exact Int.le_floor.mpr (by push_cast; linarith)
    exact_mod_cast this
  · rw [div_le_one (by norm_num)]
    have : round (100 * q) ≤ (100 : ℤ) := by
      rw [round_eq]
      calc ⌊100 * q + 1 / 2⌋ ≤ ⌊(201 : ℚ) / 2⌋ := Int.floor_le_floor (by linarith)
        _ = 100 := by norm_num
    exact_mod_cast this

end HCM

namespace HCM

/-- C10.  For every Page, the page risk score returned by the per-page
risk calculation is at most 1.0: the five fixed penalties sum to exactly
1.0 when all fire, so the uncapped raw sum in fact never exceeds 1.0. -/
theorem C10_page_risk_at_most_one (page : PageAnalysis) :
    calculate_page_risk page ≤ 1 := by
  rw [calculate_page_risk_eq]
  split_ifs <;> norm_num

/-- C3.  For every Page, the page risk score is the sum of exactly the
five fixed penalties (0.3 for load time above 3.0, 0.3 for complexity
above 0.7, 0.2 for technical debt above 0.5, 0.1 for not mobile
friendly, 0.1 for accessibility below 0.8), with no cap applied to the
sum; the bucket is high exactly when the raw sum is at least 0.7, medium
exactly when it is at least 0.4 but below 0.7, and low otherwise; and
the scenario page with load time 4.0, complexity 0.9, accessibility 0.6,
not mobile friendly and technical debt 0.72 scores exactly 1.0 and is
bucketed high. -/
theorem C3_page_risk_penalties_and_buckets :
    (∀ page : PageAnalysis, calculate_page_risk page =
        (if page.load_time > 3 then (0.3 : ℚ) else 0) +
        (if page.complexity_score > 0.7 then (0.3 : ℚ) else 0) +
        (if page.technical_debt > 0.5 then (0.2 : ℚ) else 0) +
        (if page.mobile_friendly = false then (0.1 : ℚ) else 0) +
        (if page.accessibility_score < 0.8 then (0.1 : ℚ) else 0)) ∧
    (∀ s : ℚ, (risk_bucket s = .high ↔ s ≥ 0.7) ∧
        (risk_bucket s = .medium ↔ ¬s ≥ 0.7 ∧ s ≥ 0.4) ∧
        (risk_bucket s = .low ↔ ¬s ≥ 0.7 ∧ ¬s ≥ 0.4)) ∧
    calculate_page_risk scenario_page = 1 ∧
    risk_bucket (calculate_page_risk scenario_page) = .high := by
  have hrisk : calculate_page_risk scenario_page = 1 := by
    rw [calculate_page_risk_eq]
    norm_num [scenario_page]
  refine ⟨calculate_page_risk_eq, fun s => ?_, hrisk, ?_⟩
  · unfold risk_bucket
    split_ifs with h1 h2 <;> simp_all
  · rw [hrisk]
    unfold risk_bucket
    norm_num

/-- C9.  The aggregator never mutates its inputs: in the state-passing
rendering of _calculate_statistics, the record state after the call is
the record state before it, and the returned statistics are the pure
function of the three lists. -/
theorem C9_aggregator_reads_only (st : SessionRecords) :
    (calculate_statistics_st st).2 = st ∧
    (calculate_statistics_st st).1 =
      calculate_statistics st.pages st.features st.best_practices :=
  ⟨rfl, rfl⟩

/-- C1.  The claim says the per-item cost figure is the parsed numeric
lower bound of the cost range and total_estimated_cost sums those lower
bounds.  The code instead strips every dollar sign and comma from the
whole range string and applies float() to the remainder, which still
contains the separator, so the call raises ValueError: evaluated at the
always-emitted RBAC practice, whose cost_estimate is the range
"$30,000 - $50,000", the ROI analysis fails instead of producing the
lower bound 30000.  The claim states the clear intent (the spec and the
data model require a parseable lower bound); the code is a slip. -/
theorem C1_roi_cost_parse_raises_on_range :
    generate_roi_analysis [implement_rbac_bp] = none ∧
    parse_estimated_cost "$30,000 - $50,000" = none := by
  have hparse : parse_estimated_cost "$30,000 - $50,000" = none := by decide
  have hscore : calculate_roi_score_report implement_rbac_bp = 3 := by
    simp [calculate_roi_score_report, implement_rbac_bp]
  refine ⟨?_, hparse⟩
  simp only [generate_roi_analysis, List.map_cons, List.map_nil, List.filter_cons,
    List.filter_nil, mkRoiItem, hscore]
  norm_num [implement_rbac_bp, hparse]

end HCM

namespace HCM

/-- C4.  calculate_statistics never raises on empty input: with an empty
page list every page-derived average and count field is 0, with an empty
best practice list roi_score is exactly 0, and with an empty feature
list the feature-derived scores are 0. -/
theorem C4_empty_inputs_return_zero :
    (∀ (features : List FeatureAnalysis) (best_practices : List BestPractice),
        (calculate_statistics [] features best_practices).average_complexity = 0 ∧
        (calculate_statistics [] features best_practices).average_load_time = 0 ∧
        (calculate_statistics [] features best_practices).high_complexity_pages = 0 ∧
        (calculate_statistics [] features best_practices).performance_issues = 0 ∧
        (calculate_statistics [] features best_practices).accessibility_issues = 0 ∧
        (calculate_statistics [] features best_practices).mobile_friendly_pages = 0 ∧
        (calculate_statistics [] features best_practices).seo_optimized_pages = 0 ∧
        (calculate_statistics [] features best_practices).technical_debt_total = 0 ∧
        (calculate_statistics [] features best_practices).workflow_integration_score = 0 ∧
        (calculate_statistics [] features best_practices).feature_density = 0 ∧
        (calculate_statistics [] features best_practices).total_pages = 0) ∧
    (∀ (pages : List PageAnalysis) (features : List FeatureAnalysis),
        (calculate_statistics pages features []).roi_score = 0) ∧
    (∀ (pages : List PageAnalysis) (best_practices : List BestPractice),
        (calculate_statistics pages [] best_practices).business_value_score = 0 ∧
        (calculate_statistics pages [] best_practices).implementation_effort_score = 0 ∧
        (calculate_statistics pages [] best_practices).feature_density = 0) := by
  refine ⟨fun features best_practices => ?_, fun pages features => ?_,
    fun pages best_practices => ?_⟩
  · simp [calculate_statistics, calculate_workflow_integration_score, round2]
  · simp [calculate_statistics, calculate_roi_score]
  · simp [calculate_statistics, calculate_business_value_score,
      calculate_implementation_effort_score, round2]

/-- Closed form of the report generator roadmap loop from any starting
accumulator: each bucket receives, in input order, exactly the entries
of the practices whose priority routes there. -/
theorem roadmap_report_foldl (bps : List BestPractice) (acc : RoadmapReport) :
    bps.foldl roadmap_report_step acc =
      { immediate_actions := acc.immediate_actions ++
          (bps.filter fun bp => decide (bp.priority = 5)).map mkRoadmapItem
        short_term := acc.short_term ++
          (bps.filter fun bp => decide (bp.priority = 4)).map mkRoadmapItem
        medium_term := acc.medium_term ++
          (bps.filter fun bp => decide (bp.priority = 3)).map mkRoadmapItem
        long_term := acc.long_term ++
          (bps.filter fun bp => decide (bp.priority = 2)).map mkRoadmapItem
        strategic := acc.strategic ++
          (bps.filter fun bp =>
            !decide (bp.priority = 5) && !decide (bp.priority = 4) &&
            !decide (bp.priority = 3) && !decide (bp.priority = 2)).map
            mkRoadmapItem } := by
  induction bps generalizing acc with
  | nil => simp
  | cons bp rest ih =>
      rw [List.foldl_cons, ih]
      by_cases h5 : bp.priority = 5
      · simp [roadmap_report_step, h5, List.filter_cons]
      · by_cases h4 : bp.priority = 4
        · simp [roadmap_report_step, h5, h4, List.filter_cons]
        · by_cases h3 : bp.priority = 3
          · simp [roadmap_report_step, h5, h4, h3, List.filter_cons]
          · by_cases h2 : bp.priority = 2
            · simp [roadmap_report_step, h5, h4, h3, h2, List.filter_cons]
            · simp [roadmap_report_step, h5, h4, h3, h2, List.filter_cons]

/-- Closed form of the engine roadmap loop from any starting
accumulator. -/
theorem roadmap_engine_foldl (bps : List BestPractice) (acc : RoadmapEngine) :
    bps.foldl roadmap_engine_step acc =
      { immediate := acc.immediate ++
          (bps.filter fun bp => decide (bp.priority = 5)).map BestPractice.title
        short_term := acc.short_term ++
          (bps.filter fun bp => decide (bp.priority = 4)).map BestPractice.title
        medium_term := acc.medium_term ++
          (bps.filter fun bp => decide (bp.priority = 3)).map BestPractice.title
        long_term := acc.long_term ++
          (bps.filter fun bp =>
            !decide (bp.priority = 5) && !decide (bp.priority = 4) &&
            !decide (bp.priority = 3)).map
            BestPractice.title } := by
  induction bps generalizing acc with
  | nil => simp
  | cons bp rest ih =>
      rw [List.foldl_cons, ih]
      by_cases h5 : bp.priority = 5
      · simp [roadmap_engine_step, h5, List.filter_cons]
      · by_cases h4 : bp.priority = 4
        · simp [roadmap_engine_step, h5, h4, List.filter_cons]
        · by_cases h3 : bp.priority = 3
          · simp [roadmap_engine_step, h5, h4, h3, List.filter_cons]
          · simp [roadmap_engine_step, h5, h4, h3, List.filter_cons]

/-- The five report roadmap filters partition the input list. -/
theorem roadmap_report_filter_lengths (bps : List BestPractice) :
    (bps.filter fun bp => decide (bp.priority = 5)).length +
    (bps.filter fun bp => decide (bp.priority = 4)).length +
    (bps.filter fun bp => decide (bp.priority = 3)).length +
    (bps.filter fun bp => decide (bp.priority = 2)).length +
    (bps.filter fun bp =>
      !decide (bp.priority = 5) && !decide (bp.priority = 4) &&
      !decide (bp.priority = 3) && !decide (bp.priority = 2)).length
    = bps.length := by
  induction bps with
  | nil => simp
  | cons bp rest ih =>
      by_cases h5 : bp.priority = 5
      · simp [List.filter_cons, h5]; omega
      · by_cases h4 : bp.priority = 4
        · simp [List.filter_cons, h5, h4]; omega
        · by_cases h3 : bp.priority = 3
          · simp [List.filter_cons, h5, h4, h3]; omega
          · by_cases h2 : bp.priority = 2
            · simp [List.filter_cons, h5, h4, h3, h2]; omega
            · simp [List.filter_cons, h5, h4, h3, h2]; omega

/-- The four engine roadmap filters partition the input list. -/
theorem roadmap_engine_filter_lengths (bps : List BestPractice) :
    (bps.filter fun bp => decide (bp.priority = 5)).length +
    (bps.filter fun bp => decide (bp.priority = 4)).length +
    (bps.filter fun bp => decide (bp.priority = 3)).length +
    (bps.filter fun bp =>
      !decide (bp.priority = 5) && !decide (bp.priority = 4) &&
      !decide (bp.priority = 3)).length
    = bps.length := by
  induction bps with
  | nil => simp
  | cons bp rest ih =>
      by_cases h5 : bp.priority = 5
      · simp [List.filter_cons, h5]; omega
      · by_cases h4 : bp.priority = 4
        · simp [List.filter_cons, h5, h4]; omega
        · by_cases h3 : bp.priority = 3
          · simp [List.filter_cons, h5, h4, h3]; omega
          · simp [List.filter_cons, h5, h4, h3]; omega

end HCM

namespace HCM

/-- C2 (amended).  Both roadmap builders route every BestPractice to
exactly one bucket, stably in input order, as a total function of
priority.  The report generator version has the five claimed tiers, with
priority 5 to immediate_actions, 4 to short_term, 3 to medium_term, 2 to
long_term and every other value to strategic.  The engine version has no
strategic tier: priorities 5, 4 and 3 go to the first three buckets and
every other value, 2 and 1 included, falls into the
"Long-term (6+ months)" bucket.  In both, the bucket sizes sum to the
input length, so each practice lands in exactly one bucket; in
particular a priority 5 practice is in the immediate bucket and in no
other. -/
theorem C2_roadmap_tier_characterization (bps : List BestPractice) :
    ((generate_implementation_roadmap_report bps).immediate_actions =
        (bps.filter fun bp => decide (bp.priority = 5)).map mkRoadmapItem ∧
      (generate_implementation_roadmap_report bps).short_term =
        (bps.filter fun bp => decide (bp.priority = 4)).map mkRoadmapItem ∧
      (generate_implementation_roadmap_report bps).medium_term =
        (bps.filter fun bp => decide (bp.priority = 3)).map mkRoadmapItem ∧
      (generate_implementation_roadmap_report bps).long_term =
        (bps.filter fun bp => decide (bp.priority = 2)).map mkRoadmapItem ∧
      (generate_implementation_roadmap_report bps).strategic =
        (bps.filter fun bp =>
          !decide (bp.priority = 5) && !decide (bp.priority = 4) &&
          !decide (bp.priority = 3) && !decide (bp.priority = 2)).map mkRoadmapItem ∧
      (generate_implementation_roadmap_report bps).immediate_actions.length +
        (generate_implementation_roadmap_report bps).short_term.length +
        (generate_implementation_roadmap_report bps).medium_term.length +
        (generate_implementation_roadmap_report bps).long_term.length +
        (generate_implementation_roadmap_report bps).strategic.length = bps.length) ∧
    ((generate_implementation_roadmap_engine bps).immediate =
        (bps.filter fun bp => decide (bp.priority = 5)).map BestPractice.title ∧
      (generate_implementation_roadmap_engine bps).short_term =
        (bps.filter fun bp => decide (bp.priority = 4)).map BestPractice.title ∧
      (generate_implementation_roadmap_engine bps).medium_term =
        (bps.filter fun bp => decide (bp.priority = 3)).map BestPractice.title ∧
      (generate_implementation_roadmap_engine bps).long_term =
        (bps.filter fun bp =>
          !decide (bp.priority = 5) && !decide (bp.priority = 4) &&
          !decide (bp.priority = 3)).map BestPractice.title ∧
      (generate_implementation_roadmap_engine bps).immediate.length +
        (generate_implementation_roadmap_engine bps).short_term.length +
        (generate_implementation_roadmap_engine bps).medium_term.length +
        (generate_implementation_roadmap_engine bps).long_term.length = bps.length) := by
  have hr := roadmap_report_foldl bps ⟨[], [], [], [], []⟩
  have he := roadmap_engine_foldl bps ⟨[], [], [], []⟩
  have hlr := roadmap_report_filter_lengths bps
  have hle := roadmap_engine_filter_lengths bps
  unfold generate_implementation_roadmap_report generate_implementation_roadmap_engine
  rw [hr, he]
  exact ⟨⟨by simp, by simp, by simp, by simp, by simp, by simpa using hlr⟩,
    ⟨by simp, by simp, by simp, by simp, by simpa using hle⟩⟩

/-- C2 counterexample.  The claim says priority 2 maps to Long-term and
priority 1 (or any other value) to a distinct Strategic tier.  In the
engine roadmap the titles of a priority 2 practice and a priority 1
practice both land in the single "Long-term (6+ months)" bucket, and the
dict has no Strategic key at all. -/
theorem C2_engine_merges_low_priorities :
    (generate_implementation_roadmap_engine
        [priority_two_example_bp, priority_one_example_bp]).long_term =
      ["Priority Two Example", "Priority One Example"] := by
  decide

end HCM

namespace HCM

/-- Folding the ROI totals update from a dead accumulator stays dead,
modelling that a raised ValueError aborts the loop. -/
theorem roi_totals_foldl_none (items : List RoiItem) :
    items.foldl (fun (acc : Option (ℚ × ℚ)) it => acc.bind fun cb =>
        (parse_estimated_cost it.estimated_cost).map fun v =>
          (cb.1 + v, cb.2 + estimate_benefit_value it.business_impact)) none = none := by
  induction items with
  | nil => rfl
  | cons it rest ih => simpa using ih

/-- The ROI totals loop fails exactly when some visited item carries an
unparseable cost string. -/
theorem roi_totals_foldl_none_iff (items : List RoiItem) (init : ℚ × ℚ) :
    (items.foldl (fun (acc : Option (ℚ × ℚ)) it => acc.bind fun cb =>
        (parse_estimated_cost it.estimated_cost).map fun v =>
          (cb.1 + v, cb.2 + estimate_benefit_value it.business_impact)) (some init) = none)
      ↔ ∃ it ∈ items, parse_estimated_cost it.estimated_cost = none := by
  induction items generalizing init with
  | nil => simp
  | cons it rest ih =>
      rw [List.foldl_cons]
      rcases hp : parse_estimated_cost it.estimated_cost with _ | v
      · simp [hp, roi_totals_foldl_none]
      · simp [hp, ih]

/-- Every item lands in exactly one of the three ROI buckets, so the
concatenated bucket walk visits exactly the mapped items. -/
theorem mem_roi_buckets_iff (items : List RoiItem) (it : RoiItem) :
    (it ∈ (items.filter fun i => decide (i.roi_score ≥ 3)) ++
        (items.filter fun i => decide (¬i.roi_score ≥ 3 ∧ i.roi_score ≥ 1.5)) ++
        (items.filter fun i => decide (¬i.roi_score ≥ 3 ∧ ¬i.roi_score ≥ 1.5)))
      ↔ it ∈ items := by
  simp only [List.mem_append, List.mem_filter, decide_eq_true_eq]
  constructor
  · rintro ((⟨h, _⟩ | ⟨h, _⟩) | ⟨h, _⟩) <;> exact h
  · intro h
    by_cases h3 : it.roi_score ≥ 3
    · exact Or.inl (Or.inl ⟨h, h3⟩)
    · by_cases h15 : it.roi_score ≥ 1.5
      · exact Or.inl (Or.inr ⟨h, ⟨h3, h15⟩⟩)
      · exact Or.inr ⟨h, ⟨h3, h15⟩⟩

/-- C5 (amended).  The ROI analysis fails with an uncaught ValueError
exactly when some best practice cost_estimate, stripped of dollar signs
and commas, is not a float numeral; an unparseable cost string therefore
never silently contributes 0 to the cost total.  The failure condition
is not alignment with the claimed range pattern: the repository range
strings themselves are unparseable (claim C1), while a plain numeral
that does not match the pattern parses without error (the
counterexample). -/
theorem C5_parse_failure_characterization (best_practices : List BestPractice) :
    generate_roi_analysis best_practices = none ↔
      ∃ bp ∈ best_practices, parse_estimated_cost bp.cost_estimate = none := by
  simp only [generate_roi_analysis]
  rw [Option.map_eq_none', roi_totals_foldl_none_iff]
  constructor
  · rintro ⟨it, hmem, hp⟩
    rw [mem_roi_buckets_iff] at hmem
    rcases List.mem_map.mp hmem with ⟨bp, hbp, rfl⟩
    exact ⟨bp, hbp, hp⟩
  · rintro ⟨bp, hbp, hp⟩
    refine ⟨mkRoiItem bp, ?_, hp⟩
    rw [mem_roi_buckets_iff]
    exact List.mem_map_of_mem _ hbp

/-- C5 counterexample.  The claim says a cost_estimate that does not
match the range pattern makes the analysis fail with a parsing error.
The plain numeral "$5000" does not match the pattern, yet the analysis
succeeds on it and contributes 5000 to the cost total. -/
theorem C5_plain_numeral_parses_without_error :
    matches_cost_range_pattern "$5000" = false ∧
    (generate_roi_analysis [plain_cost_bp]).map RoiData.total_estimated_cost = some 5000 ∧
    generate_roi_analysis [plain_cost_bp] ≠ none := by
  have hpat : matches_cost_range_pattern "$5000" = false := by decide
  have hscore : calculate_roi_score_report plain_cost_bp = 1 / 5 := by
    simp [calculate_roi_score_report, plain_cost_bp, implement_rbac_bp]
  have hparse : parse_estimated_cost "$5000" = some 5000 := by
    have h1 : parse_estimated_cost "$5000" =
        some ((digitsValNat ['5', '0', '0', '0'] : ℕ) : ℚ) := rfl
    have h2 : digitsValNat ['5', '0', '0', '0'] = 5000 := by decide
    rw [h1, h2]
    norm_num
  have hmap : (generate_roi_analysis [plain_cost_bp]).map RoiData.total_estimated_cost =
      some 5000 := by
    simp only [generate_roi_analysis, List.map_cons, List.map_nil, List.filter_cons,
      List.filter_nil, mkRoiItem, hscore]
    norm_num [plain_cost_bp, implement_rbac_bp, hparse]
  refine ⟨hpat, hmap, fun h => ?_⟩
  rw [h] at hmap
  simp at hmap

end HCM

namespace HCM

/-- C6.  For every non-empty feature list whose business_value labels
are among low, medium and high, the business value score equals the
spec formula: the map low to 1, medium to 2, high to 3 summed over the
features, divided by three times the feature count, rounded to two
decimals; the score lies in the unit interval; it is 0 for the empty
list; and on the two-feature high/low scenario it equals 0.67. -/
theorem C6_business_value_score_formula :
    (∀ features : List FeatureAnalysis, features ≠ [] →
      (∀ f ∈ features, f.business_value = "low" ∨ f.business_value = "medium" ∨
          f.business_value = "high") →
      calculate_business_value_score features =
          round2 ((features.map fun f => business_value_map_spec f.business_value).sum /
            ((features.length : ℚ) * 3)) ∧
        0 ≤ calculate_business_value_score features ∧
        calculate_business_value_score features ≤ 1) ∧
    calculate_business_value_score [] = 0 ∧
    calculate_business_value_score [feature_high, feature_low] = 0.67 := by
  refine ⟨fun features hne hvals => ?_, by simp [calculate_business_value_score], ?_⟩
  · have hmap : (features.map fun f =>
        if f.business_value = "low" then (1 : ℚ)
        else if f.business_value = "medium" then 2
        else if f.business_value = "high" then 3 else 1) =
        features.map fun f => business_value_map_spec f.business_value := by
      apply List.map_congr_left
      intro f hf
      rcases hvals f hf with h | h | h <;> simp [business_value_map_spec, h]
    have hformula : calculate_business_value_score features =
        round2 ((features.map fun f => business_value_map_spec f.business_value).sum /
          ((features.length : ℚ) * 3)) := by
      unfold calculate_business_value_score
      rw [if_neg (by simpa using hne)]
      simp only [hmap]
    have hlen : (0 : ℚ) < (features.length : ℚ) := by
      have := List.length_pos.mpr hne
      exact_mod_cast this
    have hvallo : ∀ x ∈ features.map fun f => business_value_map_spec f.business_value,
        (0 : ℚ) ≤ x := by
      intro x hx
      rcases List.mem_map.mp hx with ⟨f, _, rfl⟩
      unfold business_value_map_spec
      split_ifs <;> norm_num
    have hvalhi : ∀ x ∈ features.map fun f => business_value_map_spec f.business_value,
        x ≤ (3 : ℚ) := by
      intro x hx
      rcases List.mem_map.mp hx with ⟨f, _, rfl⟩
      unfold business_value_map_spec
      split_ifs <;> norm_num
    have hsum0 : (0 : ℚ) ≤ (features.map fun f => business_value_map_spec f.business_value).sum :=
      List.sum_nonneg hvallo
    have hsum3 : (features.map fun f => business_value_map_spec f.business_value).sum ≤
        (features.length : ℚ) * 3 := by
      have := List.sum_le_card_nsmul
        (features.map fun f => business_value_map_spec f.business_value) 3 hvalhi
      simpa [List.length_map, nsmul_eq_mul] using this
    have hq0 : (0 : ℚ) ≤ (features.map fun f => business_value_map_spec f.business_value).sum /
        ((features.length : ℚ) * 3) := by positivity
    have hq1 : (features.map fun f => business_value_map_spec f.business_value).sum /
        ((features.length : ℚ) * 3) ≤ 1 := by
      rw [div_le_one (by positivity)]
      exact hsum3
    obtain ⟨hr0, hr1⟩ := round2_mem_unit hq0 hq1
    refine ⟨hformula, ?_, ?_⟩
    · rw [hformula]; exact hr0
    · rw [hformula]; exact hr1
  · simp [calculate_business_value_score, feature_high, feature_low, round2]
    norm_num [round_eq]

/-- Witness for C6: the singleton high-value feature list is non-empty,
its labels are admissible, and the theorem instantiates to it. -/
theorem C6_business_value_score_formula_witness :
    (([feature_high] : List FeatureAnalysis) ≠ [] ∧
      (∀ f ∈ ([feature_high] : List FeatureAnalysis),
        f.business_value = "low" ∨ f.business_value = "medium" ∨ f.business_value = "high")) ∧
    (calculate_business_value_score [feature_high] =
        round2 ((([feature_high] : List FeatureAnalysis).map fun f =>
          business_value_map_spec f.business_value).sum /
          ((([feature_high] : List FeatureAnalysis).length : ℚ) * 3)) ∧
      0 ≤ calculate_business_value_score [feature_high] ∧
      calculate_business_value_score [feature_high] ≤ 1) :=
  ⟨⟨by decide, by decide⟩,
    C6_business_value_score_formula.1 [feature_high] (by decide) (by decide)⟩

/-- C7 counterexample.  Page generation is not a function of
(name, module, index) alone: the last_updated field records the day of
the clock read, so the same arguments give different records on
different days. -/
theorem C7_page_generation_reads_clock :
    create_page_analysis "Employee Self Service" "Core HR" 1 "2024-01-01" ≠
      create_page_analysis "Employee Self Service" "Core HR" 1 "2024-01-02" := by
  intro h
  have hlu := congrArg PageAnalysis.last_updated h
  simp only [create_page_analysis] at hlu
  exact absurd hlu (by decide)

/-- C7 (amended).  Page generation is deterministic given the creation
date: two calls of _create_page_analysis with the same
(name, module, index) arguments agree on every field except possibly
last_updated, which records the date of the clock read, so calls on the
same date return identical records; and aggregation is a pure function
of its input record lists, so identical inputs give identical
SystemStats. -/
theorem C7_generation_deterministic_up_to_clock :
    (∀ (page_name module : String) (page_id : ℕ) (d₁ d₂ : String),
        create_page_analysis page_name module page_id d₁ =
          { create_page_analysis page_name module page_id d₂ with last_updated := d₁ }) ∧
    (∀ (pages : List PageAnalysis) (features : List FeatureAnalysis)
        (best_practices : List BestPractice),
        calculate_statistics pages features best_practices =
          calculate_statistics pages features best_practices) :=
  ⟨fun _ _ _ _ _ => rfl, fun _ _ _ => rfl⟩

end HCM

namespace HCM

/-- C8.  Best practice generation is rule-triggered: over the
concatenated output of the five generators, the load time practice
occurs exactly once when some page has load_time above 3.0 and never
otherwise, the mobile practice exactly once when some page is not
mobile friendly (that is, when not all pages are mobile friendly), the
WCAG practice exactly once when some page has accessibility_score below
0.8, and the RBAC and API practices exactly once unconditionally; each
counted occurrence is the rule's fixed record, whose priority, category,
impact and effort profile are stated in the final conjuncts. -/
theorem C8_rule_triggered_best_practices (pages : List PageAnalysis)
    (features : List FeatureAnalysis) :
    ((generate_best_practices pages features).countP
        (fun bp => bp == optimize_page_load_times_bp) =
      if ∃ p ∈ pages, p.load_time > 3 then 1 else 0) ∧
    ((generate_best_practices pages features).countP
        (fun bp => bp.title == "Optimize Page Load Times") =
      if ∃ p ∈ pages, p.load_time > 3 then 1 else 0) ∧
    ((generate_best_practices pages features).countP
        (fun bp => bp == improve_mobile_responsiveness_bp) =
      if ∃ p ∈ pages, p.mobile_friendly = false then 1 else 0) ∧
    ((generate_best_practices pages features).countP
        (fun bp => bp.title == "Improve Mobile Responsiveness") =
      if ∃ p ∈ pages, p.mobile_friendly = false then 1 else 0) ∧
    ((generate_best_practices pages features).countP
        (fun bp => bp == achieve_wcag_compliance_bp) =
      if ∃ p ∈ pages, p.accessibility_score < 0.8 then 1 else 0) ∧
    ((generate_best_practices pages features).countP
        (fun bp => bp.title == "Achieve WCAG 2.1 AA Compliance") =
      if ∃ p ∈ pages, p.accessibility_score < 0.8 then 1 else 0) ∧
    ((generate_best_practices pages features).countP
        (fun bp => bp == implement_rbac_bp) = 1) ∧
    ((generate_best_practices pages features).countP
        (fun bp => bp.title == "Implement Role-Based Access Control") = 1) ∧
    ((generate_best_practices pages features).countP
        (fun bp => bp == standardize_api_design_bp) = 1) ∧
    ((generate_best_practices pages features).countP
        (fun bp => bp.title == "Standardize API Design") = 1) ∧
    (optimize_page_load_times_bp.priority = 4 ∧
      optimize_page_load_times_bp.category = "Performance" ∧
      optimize_page_load_times_bp.business_impact = "high" ∧
      optimize_page_load_times_bp.estimated_effort = "medium") ∧
    (implement_rbac_bp.priority = 5 ∧ implement_rbac_bp.category = "Security" ∧
      implement_rbac_bp.business_impact = "high" ∧
      implement_rbac_bp.estimated_effort = "high") ∧
    (improve_mobile_responsiveness_bp.priority = 3 ∧
      improve_mobile_responsiveness_bp.category = "Usability" ∧
      improve_mobile_responsiveness_bp.business_impact = "medium" ∧
      improve_mobile_responsiveness_bp.estimated_effort = "medium") ∧
    (standardize_api_design_bp.priority = 4 ∧
      standardize_api_design_bp.category = "Integration" ∧
      standardize_api_design_bp.business_impact = "medium" ∧
      standardize_api_design_bp.estimated_effort = "medium") ∧
    (achieve_wcag_compliance_bp.priority = 3 ∧
      achieve_wcag_compliance_bp.category = "Accessibility" ∧
      achieve_wcag_compliance_bp.business_impact = "medium" ∧
      achieve_wcag_compliance_bp.estimated_effort = "high") := by
  by_cases h1 : ∃ p ∈ pages, p.load_time > 3 <;>
    by_cases h2 : ∃ p ∈ pages, p.mobile_friendly = false <;>
      by_cases h3 : ∃ p ∈ pages, p.accessibility_score < 0.8 <;>
        (refine ⟨?_, ?_, ?_, ?_, ?_, ?_, ?_, ?_, ?_, ?_, ?_, ?_, ?_, ?_, ?_⟩ <;>
          simp +decide [generate_best_practices, generate_performance_best_practices,
            generate_security_best_practices, generate_usability_best_practices,
            generate_integration_best_practices, generate_accessibility_best_practices,
            h1, h2, h3, List.countP_append, List.countP_cons])

end HCM
